import Mathlib

/-!
Verification of the strategy modules of the binance_bot repository
(src/src/advanced/twap.py and src/src/advanced/grid.py) against its
natural-language specification.

Modelling conventions, shared by all definitions below:
* Python floats become exact rationals; every arithmetic identity of the
  code is proved over the rationals.
* Wall-clock instants become rational offsets in seconds from the moment
  the call is made; the strftime formatting of scheduled times is dropped
  and only the underlying offset is kept.
* The in-memory dictionaries running_strategies / active_grids become
  association lists from string ids to records; dict membership becomes
  List.lookup.
* A Python function that swallows every exception and returns an error
  dictionary is embedded as a function returning a result inductive with
  an explicit error constructor.
-/

/-- One entry of the TWAP execution plan built by TWAPStrategy.execute
(twap.py lines 44-51): chunk number (1-based), chunk quantity,
scheduled time as an offset in seconds from now, and status string. -/
structure PlanEntry where
  chunk : ℕ
  quantity : ℚ
  offsetSeconds : ℚ
  status : String
  deriving DecidableEq, Repr

/-- Embeds the plan-building loop of TWAPStrategy.execute (twap.py lines
42-51): for i in range(chunks) it appends an entry with quantity
total_quantity / chunks and scheduled offset i * interval_seconds where
interval_seconds = duration_hours * 3600 / chunks. -/
def execution_plan (total_quantity duration_hours : ℚ) (chunks : ℕ) : List PlanEntry :=
  (List.range chunks).map fun i =>
    { chunk := i + 1
      quantity := total_quantity / chunks
      offsetSeconds := i * (duration_hours * 3600 / chunks)
      status := "PENDING" }

/-- A registered TWAP run, the value stored in running_strategies by
TWAPStrategy.execute (twap.py lines 63-70).  start_time and end_time are
rational timestamps; end_time and error are absent until set. -/
structure TwapRun where
  symbol : String
  side : String
  total_quantity : ℚ
  chunks_completed : ℕ
  start_time : ℚ
  status : String
  end_time : Option ℚ
  error : Option String
  deriving DecidableEq, Repr

/-- The running_strategies dictionary of TWAPStrategy as an association
list from strategy id to run record. -/
abbrev TwapRegistry := List (String × TwapRun)

/-- Updates every entry of the registry whose key equals the given id by
the function f; embeds a Python dict item assignment
running_strategies[sid][field] = value. -/
def updateRun (reg : TwapRegistry) (sid : String) (f : TwapRun → TwapRun) : TwapRegistry :=
  reg.map fun p => if p.1 = sid then (p.1, f p.2) else p

/-- Result of TWAPStrategy.execute (twap.py lines 72-87): either the
started-strategy summary dictionary or the error dictionary produced by
the blanket except clause. -/
inductive ExecResult where
  | started (strategy_id : String) (chunk_quantity interval_seconds : ℚ) (plan : List PlanEntry)
  | errored (msg : String)
  deriving DecidableEq, Repr

/-- Embeds TWAPStrategy.execute (twap.py lines 34-87).  The only
exception the body can raise is the ZeroDivisionError from
total_quantity / chunks when chunks == 0, which the blanket except turns
into the error dictionary with nothing registered; in every other case
the run is registered in running_strategies with status RUNNING and the
started summary is returned.  No parameter is validated.  t stands for
int(time.time()) used to build the strategy id, now for datetime.now();
dict insertion becomes an append (ids carry the call instant, so within
one model run they are taken distinct). -/
def twap_execute (reg : TwapRegistry) (symbol side : String)
    (total_quantity duration_hours : ℚ) (chunks : ℕ) (t : ℕ) (now : ℚ) :
    ExecResult × TwapRegistry :=
  if chunks = 0 then
    (.errored "Error starting TWAP strategy: division by zero", reg)
  else
    let chunk_qty := total_quantity / chunks
    let interval_seconds := duration_hours * 3600 / chunks
    let plan := execution_plan total_quantity duration_hours chunks
    let strategy_id := "twap_" ++ symbol ++ "_" ++ toString t
    (.started strategy_id chunk_qty interval_seconds plan,
     reg ++ [(strategy_id,
       { symbol := symbol, side := side, total_quantity := total_quantity,
         chunks_completed := 0, start_time := now, status := "RUNNING",
         end_time := none, error := none })])

/-- Embeds TWAPStrategy.cancel_strategy (twap.py lines 129-140): if the
id is registered, its status is overwritten with CANCELLED and end_time
is set, returning True; otherwise nothing changes and False is returned.
The current status is never inspected. -/
def cancel_strategy (reg : TwapRegistry) (sid : String) (now : ℚ) :
    TwapRegistry × Bool :=
  match reg.lookup sid with
  | some _ =>
    (updateRun reg sid fun r => { r with status := "CANCELLED", end_time := some now }, true)
  | none => (reg, false)

/-- Shared state touched by the TWAP background worker and
cancel_strategy: the strategy registry plus a count of market orders
submitted to the venue. -/
structure TwapSystem where
  reg : TwapRegistry
  submitted : ℕ
  deriving DecidableEq, Repr

/-- Atomic events of an interleaved execution of the TWAP background
worker (twap.py lines 89-117) and cancel_strategy: a cancel call, the
body of one loop iteration for chunk i, and the completion epilogue. -/
inductive TwapEvent where
  | cancel
  | chunk (i : ℕ)
  | finish
  deriving DecidableEq, Repr

/-- Small-step semantics of the events, straight from the source: a
chunk iteration places the market order unconditionally (twap.py line
100) and then sets chunks_completed := i + 1 if the id is still
registered (line 106); the epilogue overwrites status with COMPLETED and
sets end_time if the id is still registered (lines 113-115); neither
ever inspects the run's status, so a cancel does not stop them. -/
def twapStep (sid : String) (now : ℚ) (s : TwapSystem) (e : TwapEvent) : TwapSystem :=
  match e with
  | .cancel => { s with reg := (cancel_strategy s.reg sid now).1 }
  | .chunk i =>
    { reg := updateRun s.reg sid fun r => { r with chunks_completed := i + 1 },
      submitted := s.submitted + 1 }
  | .finish =>
    { s with reg := updateRun s.reg sid fun r =>
        { r with status := "COMPLETED", end_time := some now } }

/-- The event sequence the background worker emits by itself: one chunk
event per loop iteration in order, then the completion epilogue. -/
def workerEvents (chunks : ℕ) : List TwapEvent :=
  ((List.range chunks).map TwapEvent.chunk) ++ [TwapEvent.finish]

/-- Runs a list of events from a starting state. -/
def runEvents (sid : String) (now : ℚ) (s : TwapSystem) (es : List TwapEvent) : TwapSystem :=
  es.foldl (twapStep sid now) s

/-- Embeds np.linspace(lo, hi, n) element i: lo + i * step with step
(hi - lo) / (n - 1), which in exact arithmetic also hits hi at the last
index. -/
def linspace (lo hi : ℚ) (n : ℕ) (i : ℕ) : ℚ :=
  lo + i * ((hi - lo) / ((n : ℚ) - 1))

/-- The full arithmetic price ladder of grid.py line 38. -/
def linspaceList (lo hi : ℚ) (n : ℕ) : List ℚ :=
  (List.range n).map (linspace lo hi n)

/-- Embeds np.geomspace(lo, hi, n) element i, which is lo * q ^ i for q
the positive (n-1)-th root of hi / lo.  That root is irrational in
general, so q is an explicit parameter, constrained in the theorems by
the hypothesis lo * q ^ (n - 1) = hi that defines geomspace. -/
def geomPrice (lo q : ℚ) (i : ℕ) : ℚ := lo * q ^ i

/-- The full geometric price ladder of grid.py line 36, parametrised by
the common quotient q of consecutive prices. -/
def geomList (lo q : ℚ) (n : ℕ) : List ℚ :=
  (List.range n).map (geomPrice lo q)

/-- Embeds Python str.lower() character by character (String.toLower of
the library is equivalent but does not reduce inside the kernel). -/
def pyLower (s : String) : String := String.mk (s.data.map Char.toLower)

/-- The branch on grid_type of grid.py lines 35-38: geomspace when
grid_type.lower() == 'geometric', linspace otherwise. -/
def gridPrices (lo hi : ℚ) (n : ℕ) (grid_type : String) (q : ℚ) : List ℚ :=
  if pyLower grid_type = "geometric" then geomList lo q n else linspaceList lo hi n

/-- Embeds Python round(x, 2) as rounding half up to a multiple of 1/100.
Python rounds binary floats half to even; no price in this development
sits on an exact half cent, so the difference is immaterial here. -/
def round2 (x : ℚ) : ℚ := ((x * 100 + 1 / 2).floor : ℚ) / 100

/-- One grid level dictionary as built by grid.py lines 50-57 and later
mutated by _place_grid_orders and monitor_grid; order_id and error are
absent until set ('type' is a Python dict key, spelled order_type here). -/
structure GridLevel where
  level : ℕ
  price : ℚ
  side : String
  order_type : String
  quantity : ℚ
  status : String
  order_id : Option String
  error : Option String
  deriving DecidableEq, Repr

/-- The level-building loop of grid.py lines 42-57: enumerate the price
ladder, give even indices side BUY and odd indices side SELL, round the
stored price to 2 decimals, status PENDING. -/
def gridLevelsOf (prices : List ℚ) (order_qty : ℚ) : List GridLevel :=
  prices.enum.map fun ip =>
    { level := ip.1 + 1
      price := round2 ip.2
      side := if ip.1 % 2 = 0 then "BUY" else "SELL"
      order_type := if ip.1 % 2 = 0 then "BUY limit" else "SELL limit"
      quantity := order_qty
      status := "PENDING"
      order_id := none
      error := none }

/-- The names bound at module level by grid.py lines 1-5: numpy as np,
the typing imports, and the three project imports.  Neither time nor
threading is among them, although lines 59 and 79 use them. -/
def gridModuleNames : List String :=
  ["np", "Dict", "List", "BinanceFuturesClient", "TradingLogger", "LimitOrder"]

/-- One entry of active_grids as stored by grid.py lines 61-72. -/
structure Grid where
  symbol : String
  lower_price : ℚ
  upper_price : ℚ
  grid_lines : ℕ
  order_qty : ℚ
  grid_type : String
  levels : List GridLevel
  status : String
  orders_placed : ℕ
  orders_filled : ℕ
  deriving DecidableEq, Repr

/-- The active_grids dictionary as an association list. -/
abbrev GridRegistry := List (String × Grid)

/-- Result of GridStrategy.setup_grid: the INITIALIZED summary or the
error dictionary from the blanket except. -/
inductive SetupResult where
  | ok (grid_id : String) (levels : List GridLevel)
  | err (error status : String)
  deriving DecidableEq, Repr

/-- Embeds GridStrategy.setup_grid (grid.py lines 17-100).  The price
ladder and levels are computed first (lines 34-57); then line 59
evaluates int(time.time()).  The membership test on gridModuleNames
embeds Python name resolution at that point: time is not a module-level
name of grid.py, so the lookup raises NameError, which the blanket
except of lines 97-100 turns into the error dictionary, before
active_grids is touched and before any thread or order placement is
started.  The branch guarded by the (false) membership test transcribes
the unreachable success path, with t for int(time.time()). -/
def setup_grid (grids : GridRegistry) (symbol : String)
    (lower_price upper_price : ℚ) (grid_lines : ℕ) (order_qty : ℚ)
    (grid_type : String) (q : ℚ) (t : ℕ) : SetupResult × GridRegistry :=
  let prices := gridPrices lower_price upper_price grid_lines grid_type q
  let grid_levels := gridLevelsOf prices order_qty
  if "time" ∈ gridModuleNames then
    let grid_id := "grid_" ++ symbol ++ "_" ++ toString t
    (.ok grid_id grid_levels,
     grids ++ [(grid_id,
       { symbol := symbol, lower_price := lower_price, upper_price := upper_price,
         grid_lines := grid_lines, order_qty := order_qty, grid_type := grid_type,
         levels := grid_levels, status := "SETUP",
         orders_placed := 0, orders_filled := 0 })])
  else
    (.err "Error setting up grid: name 'time' is not defined" "ERROR", grids)

/-- The three outcomes one limit-order placement can have inside
_place_grid_orders (grid.py lines 112-136): a response carrying an
orderId, a response without one (venue rejection or the error dictionary
LimitOrder.place_order returns after catching a network failure), or an
exception reaching the per-level except clause. -/
inductive GatewayResp where
  | ack (orderId : String)
  | rejected (msg : String)
  | exn (e : String)
  deriving DecidableEq, Repr

/-- The body of one iteration of the placement loop (grid.py lines
111-136): ack sets PLACED and records the order id, a response without
orderId sets FAILED, an exception sets ERROR; each level is handled
inside its own try, so the outcome of one never touches another. -/
def placeLevel (resp : GatewayResp) (lvl : GridLevel) : GridLevel :=
  match resp with
  | .ack oid => { lvl with status := "PLACED", order_id := some oid }
  | .rejected m => { lvl with status := "FAILED", error := some m }
  | .exn e => { lvl with status := "ERROR", error := some e }

/-- The whole placement loop over the levels, with gw giving the venue's
response to the order for each level index. -/
def place_grid_orders (gw : ℕ → GatewayResp) (levels : List GridLevel) : List GridLevel :=
  levels.enum.map fun il => placeLevel (gw il.1) il.2

/-- The orders_placed counter incremented once per ack (grid.py line 124). -/
def orders_placed_count (gw : ℕ → GatewayResp) (levels : List GridLevel) : ℕ :=
  levels.enum.countP fun il =>
    match gw il.1 with
    | .ack _ => true
    | _ => false

/-- The grid after _place_grid_orders finishes (grid.py lines 111-142):
every level rewritten by its own gateway outcome, orders_placed advanced
by the number of acks, status set to ACTIVE. -/
def run_place_grid_orders (gw : ℕ → GatewayResp) (g : Grid) : Grid :=
  { g with levels := place_grid_orders gw g.levels,
           orders_placed := g.orders_placed + orders_placed_count gw g.levels,
           status := "ACTIVE" }

/-- The per-level body of the reconciliation loop of monitor_grid
(grid.py lines 164-170): a level with an order id is set to OPEN when
the id is in the venue's open-order set and to FILLED otherwise,
whatever its status was before; a level without an order id is left
alone. -/
def monitorLevel (open_order_ids : List String) (lvl : GridLevel) : GridLevel :=
  match lvl.order_id with
  | some oid =>
    if oid ∈ open_order_ids then { lvl with status := "OPEN" }
    else { lvl with status := "FILLED" }
  | none => lvl

/-- Whether a level counts towards filled_orders in the same loop: it
has an order id that is absent from the open-order set. -/
def filledFlag (open_order_ids : List String) (lvl : GridLevel) : Bool :=
  match lvl.order_id with
  | some oid => !(open_order_ids.contains oid)
  | none => false

/-- Embeds GridStrategy.monitor_grid (grid.py lines 149-182) acting on a
found grid: every level is rewritten by monitorLevel and orders_filled
is recomputed from scratch; the grid's own status and orders_placed are
not touched. -/
def monitor_grid (open_order_ids : List String) (g : Grid) : Grid :=
  { g with levels := g.levels.map (monitorLevel open_order_ids),
           orders_filled := g.levels.countP (filledFlag open_order_ids) }

/-- Result of GridStrategy.close_grid: the CLOSED summary or the error
dictionary. -/
inductive CloseResult where
  | closed (grid_id : String) (orders_cancelled : ℕ)
  | err (error status : String)
  deriving DecidableEq, Repr

/-- Updates the grid stored under gid, embedding a dict item assignment
on active_grids. -/
def updateGrid (grids : GridRegistry) (gid : String) (f : Grid → Grid) : GridRegistry :=
  grids.map fun p => if p.1 = gid then (p.1, f p.2) else p

/-- Embeds GridStrategy.close_grid (grid.py lines 189-225): an unknown
id yields the Grid-not-found error dictionary; otherwise every open
order whose cancel request succeeds is counted and the grid's status is
overwritten with CLOSED, whatever it was before.  open_orders is the
venue's open-order list for the symbol, cancelOk tells which cancel
requests succeed. -/
def close_grid (grids : GridRegistry) (gid : String)
    (open_orders : List String) (cancelOk : String → Bool) :
    CloseResult × GridRegistry :=
  match grids.lookup gid with
  | none => (.err "Grid not found" "ERROR", grids)
  | some _ =>
    let cancelled := (open_orders.filter cancelOk).length
    (.closed gid cancelled, updateGrid grids gid fun g => { g with status := "CLOSED" })

/-- A TWAP run as registered by twap_execute while still running; used
to instantiate theorems at concrete states. -/
def runningRun : TwapRun :=
  { symbol := "BTCUSDT", side := "BUY", total_quantity := 1,
    chunks_completed := 0, start_time := 0, status := "RUNNING",
    end_time := none, error := none }

/-- A TWAP run that has already reached the terminal status COMPLETED. -/
def completedRun : TwapRun :=
  { symbol := "BTCUSDT", side := "BUY", total_quantity := 1,
    chunks_completed := 4, start_time := 0, status := "COMPLETED",
    end_time := some 100, error := none }

/-- A grid level whose order has been reconciled to the terminal status
FILLED, with venue order id 1. -/
def filledLevel : GridLevel :=
  { level := 1, price := 50000, side := "BUY", order_type := "BUY limit",
    quantity := 1, status := "FILLED", order_id := some "1", error := none }

/-- A concrete grid record used to instantiate theorems. -/
def sampleGrid : Grid :=
  { symbol := "BTCUSDT", lower_price := 48000, upper_price := 52000,
    grid_lines := 5, order_qty := 1, grid_type := "Arithmetic",
    levels := [filledLevel], status := "ACTIVE",
    orders_placed := 1, orders_filled := 0 }

theorem lookup_updateRun (reg : TwapRegistry) (sid : String) (f : TwapRun → TwapRun) :
    (updateRun reg sid f).lookup sid = (reg.lookup sid).map f := by
  induction reg with
  | nil => rfl
  | cons p rest ih =>
    rcases p with ⟨k, v⟩
    show List.lookup sid ((if k = sid then (k, f v) else (k, v)) :: updateRun rest sid f)
        = Option.map f (List.lookup sid ((k, v) :: rest))
    by_cases h : k = sid
    · rw [if_pos h]
      subst h
      simp [List.lookup]
    · rw [if_neg h]
      have hne : (sid == k) = false := beq_eq_false_iff_ne.mpr (Ne.symm h)
      simpa [List.lookup, hne] using ih

theorem lookup_updateGrid (grids : GridRegistry) (gid : String) (f : Grid → Grid) :
    (updateGrid grids gid f).lookup gid = (grids.lookup gid).map f := by
  induction grids with
  | nil => rfl
  | cons p rest ih =>
    rcases p with ⟨k, v⟩
    show List.lookup gid ((if k = gid then (k, f v) else (k, v)) :: updateGrid rest gid f)
        = Option.map f (List.lookup gid ((k, v) :: rest))
    by_cases h : k = gid
    · rw [if_pos h]
      subst h
      simp [List.lookup]
    · rw [if_neg h]
      have hne : (gid == k) = false := beq_eq_false_iff_ne.mpr (Ne.symm h)
      simpa [List.lookup, hne] using ih

theorem sum_map_const_rat (c : ℚ) (l : List ℕ) :
    (l.map fun _ => c).sum = l.length * c := by
  induction l with
  | nil => simp
  | cons a l ih => simp [ih]; ring

/-- C1: for every valid TWAP start request (total_quantity > 0,
chunks >= 1, duration_hours > 0), the execution plan built by
TWAPStrategy.execute has exactly chunks entries, each of quantity
total_quantity / chunks, the quantities sum to total_quantity within
1e-8 absolute, and entry i is scheduled i * (duration_hours * 3600 /
chunks) seconds after the current time. -/
theorem twap_plan_correct (total_quantity duration_hours : ℚ) (chunks : ℕ)
    (hq : 0 < total_quantity) (hc : 1 ≤ chunks) (hd : 0 < duration_hours) :
    (execution_plan total_quantity duration_hours chunks).length = chunks ∧
    (∀ e ∈ execution_plan total_quantity duration_hours chunks,
      e.quantity = total_quantity / chunks) ∧
    |((execution_plan total_quantity duration_hours chunks).map PlanEntry.quantity).sum
        - total_quantity| ≤ 1 / 100000000 ∧
    ∀ i (h : i < (execution_plan total_quantity duration_hours chunks).length),
      ((execution_plan total_quantity duration_hours chunks)[i]).offsetSeconds
        = i * (duration_hours * 3600 / chunks) := by
  have hcq : ((chunks : ℚ)) ≠ 0 := Nat.cast_ne_zero.mpr (by omega)
  refine ⟨by simp [execution_plan], ?_, ?_, ?_⟩
  · intro e he
    simp only [execution_plan, List.mem_map, List.mem_range] at he
    obtain ⟨i, _, rfl⟩ := he
    rfl
  · have hmap : ((execution_plan total_quantity duration_hours chunks).map PlanEntry.quantity)
        = (List.range chunks).map fun _ => total_quantity / chunks := by
      simp only [execution_plan, List.map_map]
      rfl
    rw [hmap, sum_map_const_rat]
    simp only [List.length_range]
    rw [mul_div_cancel₀ _ hcq]
    simp
  · intro i h
    simp [execution_plan]

/-- Witness for C1 at the spec scenario: total_quantity 1, duration 1
hour, 4 chunks gives 4 children of quantity 1/4 scheduled 0, 900, 1800
and 2700 seconds from now (t+0, +15, +30, +45 minutes). -/
theorem twap_plan_correct_witness :
    ((execution_plan 1 1 4).map PlanEntry.quantity = [1/4, 1/4, 1/4, 1/4] ∧
     (execution_plan 1 1 4).map PlanEntry.offsetSeconds = [0, 900, 1800, 2700]) ∧
    ((execution_plan 1 1 4).length = 4 ∧
     (∀ e ∈ execution_plan 1 1 4, e.quantity = 1 / ((4 : ℕ) : ℚ)) ∧
     |((execution_plan 1 1 4).map PlanEntry.quantity).sum - 1| ≤ 1 / 100000000 ∧
     ∀ i (h : i < (execution_plan 1 1 4).length),
       ((execution_plan 1 1 4)[i]).offsetSeconds = i * ((1 : ℚ) * 3600 / ((4 : ℕ) : ℚ))) :=
  ⟨⟨by norm_num [execution_plan, List.range_succ],
    by norm_num [execution_plan, List.range_succ]⟩,
   twap_plan_correct 1 1 4 (by norm_num) (by norm_num) (by norm_num)⟩

/-- C2: for every input, GridStrategy.setup_grid returns the error
dictionary and registers nothing, because grid.py never imports time
(nor threading) and the int(time.time()) on line 59 therefore raises
NameError, which the blanket except converts to the error return before
active_grids is written and before any order placement is started. -/
theorem setup_grid_always_errors (grids : GridRegistry) (symbol : String)
    (lower_price upper_price : ℚ) (grid_lines : ℕ) (order_qty : ℚ)
    (grid_type : String) (q : ℚ) (t : ℕ) :
    setup_grid grids symbol lower_price upper_price grid_lines order_qty grid_type q t
      = (.err "Error setting up grid: name 'time' is not defined" "ERROR", grids) := by
  have h : ("time" ∈ gridModuleNames) = False := by simp [gridModuleNames]
  simp [setup_grid, h]

theorem countP_enumFrom_even (s : ℕ) (ps : List ℚ) :
    (List.enumFrom s ps).countP (fun ip => ip.1 % 2 == 0)
      = if s % 2 = 0 then (ps.length + 1) / 2 else ps.length / 2 := by
  induction ps generalizing s with
  | nil => simp [List.enumFrom]
  | cons p rest ih =>
    simp only [List.enumFrom, List.countP_cons, List.length_cons, beq_iff_eq]
    rw [ih (s + 1)]
    split_ifs with h1 h2 h2 <;> omega

theorem countP_enumFrom_odd (s : ℕ) (ps : List ℚ) :
    (List.enumFrom s ps).countP (fun ip => !(ip.1 % 2 == 0))
      = if s % 2 = 0 then ps.length / 2 else (ps.length + 1) / 2 := by
  induction ps generalizing s with
  | nil => simp [List.enumFrom]
  | cons p rest ih =>
    simp only [List.enumFrom, List.countP_cons, List.length_cons, Bool.not_eq_true',
      beq_eq_false_iff_ne, ne_eq]
    rw [ih (s + 1)]
    split_ifs with h1 h2 h2 <;> omega

theorem gridLevelsOf_length (prices : List ℚ) (order_qty : ℚ) :
    (gridLevelsOf prices order_qty).length = prices.length := by
  simp [gridLevelsOf]

theorem gridPrices_length (lo hi : ℚ) (n : ℕ) (grid_type : String) (q : ℚ) :
    (gridPrices lo hi n grid_type q).length = n := by
  unfold gridPrices
  split <;> simp [geomList, linspaceList]

theorem gridLevelsOf_countBuy (prices : List ℚ) (order_qty : ℚ) :
    (gridLevelsOf prices order_qty).countP (fun l => l.side == "BUY")
      = (prices.length + 1) / 2 := by
  unfold gridLevelsOf
  rw [List.countP_map]
  have hpt : ((fun l : GridLevel => l.side == "BUY") ∘ fun ip : ℕ × ℚ =>
        ({ level := ip.1 + 1, price := round2 ip.2,
           side := if ip.1 % 2 = 0 then "BUY" else "SELL",
           order_type := if ip.1 % 2 = 0 then "BUY limit" else "SELL limit",
           quantity := order_qty, status := "PENDING",
           order_id := none, error := none } : GridLevel))
        = (fun ip : ℕ × ℚ => ip.1 % 2 == 0) := by
    funext ip
    by_cases h : ip.1 % 2 = 0 <;> simp [h]
  rw [hpt]
  have henum : prices.enum = List.enumFrom 0 prices := rfl
  rw [henum, countP_enumFrom_even]
  simp

theorem gridLevelsOf_countSell (prices : List ℚ) (order_qty : ℚ) :
    (gridLevelsOf prices order_qty).countP (fun l => l.side == "SELL")
      = prices.length / 2 := by
  unfold gridLevelsOf
  rw [List.countP_map]
  have hpt : ((fun l : GridLevel => l.side == "SELL") ∘ fun ip : ℕ × ℚ =>
        ({ level := ip.1 + 1, price := round2 ip.2,
           side := if ip.1 % 2 = 0 then "BUY" else "SELL",
           order_type := if ip.1 % 2 = 0 then "BUY limit" else "SELL limit",
           quantity := order_qty, status := "PENDING",
           order_id := none, error := none } : GridLevel))
        = (fun ip : ℕ × ℚ => !(ip.1 % 2 == 0)) := by
    funext ip
    by_cases h : ip.1 % 2 = 0 <;> simp [h]
  rw [hpt]
  have henum : prices.enum = List.enumFrom 0 prices := rfl
  rw [henum, countP_enumFrom_odd]
  simp

/-- C3: for every GRID request with n levels, the level built at an even
index gets side BUY and the one at an odd index gets side SELL, so there
are exactly ceil(n/2) = (n+1)/2 BUY levels and floor(n/2) = n/2 SELL
levels. -/
theorem grid_sides_parity (lower upper q order_qty : ℚ) (n : ℕ) (grid_type : String) :
    (gridLevelsOf (gridPrices lower upper n grid_type q) order_qty).length = n ∧
    (∀ i (h : i < (gridLevelsOf (gridPrices lower upper n grid_type q) order_qty).length),
      ((gridLevelsOf (gridPrices lower upper n grid_type q) order_qty)[i]).side
        = if i % 2 = 0 then "BUY" else "SELL") ∧
    (gridLevelsOf (gridPrices lower upper n grid_type q) order_qty).countP
        (fun l => l.side == "BUY") = (n + 1) / 2 ∧
    (gridLevelsOf (gridPrices lower upper n grid_type q) order_qty).countP
        (fun l => l.side == "SELL") = n / 2 := by
  refine ⟨by rw [gridLevelsOf_length, gridPrices_length], ?_, ?_, ?_⟩
  · intro i h
    simp [gridLevelsOf]
  · rw [gridLevelsOf_countBuy, gridPrices_length]
  · rw [gridLevelsOf_countSell, gridPrices_length]

/-- Witness for C3 at the spec scenario: an arithmetic grid with 5
levels over 48000..52000 has side sequence BUY, SELL, BUY, SELL, BUY,
hence 3 BUY and 2 SELL levels. -/
theorem grid_sides_parity_witness :
    ((gridLevelsOf (gridPrices 48000 52000 5 "Arithmetic" 0) 1).map GridLevel.side
        = ["BUY", "SELL", "BUY", "SELL", "BUY"]) ∧
    ((gridLevelsOf (gridPrices 48000 52000 5 "Arithmetic" 0) 1).length = 5 ∧
     (∀ i (h : i < (gridLevelsOf (gridPrices 48000 52000 5 "Arithmetic" 0) 1).length),
       ((gridLevelsOf (gridPrices 48000 52000 5 "Arithmetic" 0) 1)[i]).side
         = if i % 2 = 0 then "BUY" else "SELL") ∧
     (gridLevelsOf (gridPrices 48000 52000 5 "Arithmetic" 0) 1).countP
         (fun l => l.side == "BUY") = (5 + 1) / 2 ∧
     (gridLevelsOf (gridPrices 48000 52000 5 "Arithmetic" 0) 1).countP
         (fun l => l.side == "SELL") = 5 / 2) :=
  ⟨by
    have hb : ¬ (pyLower "Arithmetic" = "geometric") := by decide
    norm_num [gridLevelsOf, gridPrices, hb, linspaceList, List.range_succ, List.enum,
      List.enumFrom],
   grid_sides_parity 48000 52000 0 1 5 "Arithmetic"⟩

/-- C4: for every GRID request with lower < upper and at least 2 levels,
the computed price ladder is strictly increasing from lower (index 0) to
upper (index n-1): under arithmetic spacing consecutive prices differ by
the uniform step (upper - lower)/(n-1), and under geometric spacing
(which additionally needs lower > 0 for np.geomspace to produce a
ladder) consecutive prices have the uniform quotient q, the positive
(n-1)-th root of upper/lower characterised by lower * q ^ (n-1) = upper.
The code rounds each price to 2 decimals only when storing it into the
level dictionaries; the ladder itself is as computed here. -/
theorem grid_ladder_monotone (lo hi : ℚ) (n : ℕ) (hlt : lo < hi) (hn : 2 ≤ n) :
    ((linspaceList lo hi n).length = n ∧
     (∀ i (h : i < (linspaceList lo hi n).length),
       (linspaceList lo hi n)[i] = linspace lo hi n i) ∧
     (∀ i j : ℕ, i < j → linspace lo hi n i < linspace lo hi n j) ∧
     linspace lo hi n 0 = lo ∧
     linspace lo hi n (n - 1) = hi ∧
     (∀ i : ℕ, linspace lo hi n (i + 1) - linspace lo hi n i
        = (hi - lo) / ((n : ℚ) - 1))) ∧
    (∀ q : ℚ, 0 < lo → 0 < q → lo * q ^ (n - 1) = hi →
      ((geomList lo q n).length = n ∧
       (∀ i (h : i < (geomList lo q n).length),
         (geomList lo q n)[i] = geomPrice lo q i) ∧
       (∀ i j : ℕ, i < j → geomPrice lo q i < geomPrice lo q j) ∧
       geomPrice lo q 0 = lo ∧
       geomPrice lo q (n - 1) = hi ∧
       (∀ i : ℕ, geomPrice lo q (i + 1) / geomPrice lo q i = q))) := by
  have hn2 : (2 : ℚ) ≤ (n : ℚ) := by exact_mod_cast hn
  have hd : (0 : ℚ) < (n : ℚ) - 1 := by linarith
  have hstep : 0 < (hi - lo) / ((n : ℚ) - 1) := div_pos (by linarith) hd
  constructor
  · refine ⟨by simp [linspaceList], ?_, ?_, ?_, ?_, ?_⟩
    · intro i h
      simp [linspaceList]
    · intro i j hij
      unfold linspace
      have hijq : (i : ℚ) < (j : ℚ) := by exact_mod_cast hij
      have := mul_lt_mul_of_pos_right hijq hstep
      linarith
    · simp [linspace]
    · unfold linspace
      have hc : (((n - 1 : ℕ)) : ℚ) = (n : ℚ) - 1 := by
        rw [Nat.cast_sub (by omega)]
        norm_num
      rw [hc, mul_comm, div_mul_cancel₀ _ (ne_of_gt hd)]
      ring
    · intro i
      unfold linspace
      push_cast
      ring
  · intro q hlo hq hend
    have hlo' : lo ≠ 0 := ne_of_gt hlo
    have hq' : q ≠ 0 := ne_of_gt hq
    have hq1 : 1 < q := by
      by_contra hle
      push_neg at hle
      have hpow : q ^ (n - 1) ≤ 1 := pow_le_one₀ (le_of_lt hq) hle
      have hmul : lo * q ^ (n - 1) ≤ lo * 1 :=
        mul_le_mul_of_nonneg_left hpow (le_of_lt hlo)
      rw [mul_one, hend] at hmul
      linarith
    refine ⟨by simp [geomList], ?_, ?_, ?_, hend, ?_⟩
    · intro i h
      simp [geomList]
    · intro i j hij
      unfold geomPrice
      have hj : j = i + (j - i) := by omega
      have hgt : 1 < q ^ (j - i) := one_lt_pow₀ hq1 (by omega)
      have hpos : 0 < lo * q ^ i := mul_pos hlo (pow_pos hq i)
      rw [hj, pow_add]
      nlinarith
    · simp [geomPrice]
    · intro i
      unfold geomPrice
      have h1 : lo * q ^ i ≠ 0 := mul_ne_zero hlo' (pow_ne_zero i hq')
      rw [pow_succ]
      field_simp
      ring

/-- Witness for C4: the arithmetic ladder over 1..16 with 5 levels rises
strictly, and the geometric ladder with quotient 2 (1, 2, 4, 8, 16)
rises strictly and ends at 16. -/
theorem grid_ladder_monotone_witness :
    linspace 1 16 5 0 < linspace 1 16 5 4 ∧
    linspace 1 16 5 (5 - 1) = 16 ∧
    geomPrice 1 2 0 < geomPrice 1 2 4 ∧
    geomPrice 1 2 (5 - 1) = 16 := by
  have h := grid_ladder_monotone 1 16 5 (by norm_num) (by norm_num)
  have hg := h.2 2 (by norm_num) (by norm_num) (by norm_num)
  exact ⟨h.1.2.2.1 0 4 (by norm_num), h.1.2.2.2.2.1,
         hg.2.2.1 0 4 (by norm_num), hg.2.2.2.2.1⟩

theorem monitorLevel_order_id (open_order_ids : List String) (lvl : GridLevel) :
    (monitorLevel open_order_ids lvl).order_id = lvl.order_id := by
  unfold monitorLevel
  cases h : lvl.order_id with
  | none => exact h
  | some oid =>
    by_cases hm : oid ∈ open_order_ids <;> simp [hm]

theorem monitorLevel_idem (open_order_ids : List String) (lvl : GridLevel) :
    monitorLevel open_order_ids (monitorLevel open_order_ids lvl)
      = monitorLevel open_order_ids lvl := by
  unfold monitorLevel
  cases h : lvl.order_id with
  | none => simp [h]
  | some oid =>
    by_cases hm : oid ∈ open_order_ids <;> simp [h, hm]

theorem filledFlag_monitorLevel (open_order_ids : List String) (lvl : GridLevel) :
    filledFlag open_order_ids (monitorLevel open_order_ids lvl)
      = filledFlag open_order_ids lvl := by
  unfold filledFlag monitorLevel
  cases h : lvl.order_id with
  | none => simp [h]
  | some oid =>
    by_cases hm : oid ∈ open_order_ids <;> simp [h, hm]

/-- Counterexample to C5 as stated: a child level whose status is the
terminal FILLED, with venue order id 1, is moved back to OPEN by a
monitor_grid pass in which id 1 is again among the venue's open orders;
the terminal status is changed by a subsequent status update and no
InvalidTransition is raised. -/
theorem monitor_overwrites_filled_counterexample :
    (monitorLevel ["1"] filledLevel).status = "OPEN" ∧
    filledLevel.status = "FILLED" ∧
    ("OPEN" : String) ≠ "FILLED" := by
  refine ⟨?_, rfl, by decide⟩
  rfl

/-- C5 amended: monitor_grid recomputes the status of every level that
carries an order id from the venue's open-order set alone, OPEN when the
id is present and FILLED when it is absent, regardless of the previous
status; hence a FILLED status persists exactly while the order id stays
absent from the open-order set, a level without an order id is never
touched, and no InvalidTransition mechanism exists. -/
theorem monitor_status_from_venue (open_order_ids : List String) (lvl : GridLevel) :
    (∀ oid, lvl.order_id = some oid →
      (monitorLevel open_order_ids lvl).status
        = (if oid ∈ open_order_ids then "OPEN" else "FILLED") ∧
      (lvl.status = "FILLED" → oid ∉ open_order_ids →
        (monitorLevel open_order_ids lvl).status = lvl.status)) ∧
    (lvl.order_id = none → monitorLevel open_order_ids lvl = lvl) := by
  constructor
  · intro oid hsome
    unfold monitorLevel
    rw [hsome]
    by_cases hm : oid ∈ open_order_ids
    · simp [hm]
    · simp [hm]
      intro hfill
      exact hfill.symm
  · intro hnone
    unfold monitorLevel
    rw [hnone]

/-- Witness for C5 amended: a FILLED level with order id 1 stays FILLED
while the open-order set is just 2, and an id-less level is untouched. -/
theorem monitor_status_from_venue_witness :
    ((monitorLevel ["2"] filledLevel).status
        = (if "1" ∈ ["2"] then "OPEN" else "FILLED")) ∧
    (monitorLevel ["2"] filledLevel).status = filledLevel.status := by
  have h := (monitor_status_from_venue ["2"] filledLevel).1 "1" rfl
  exact ⟨h.1, h.2 rfl (by decide)⟩

/-- C9: reconciliation is idempotent with respect to unchanged venue
state: a second monitor_grid pass with the same open-order set leaves
every level status, the orders_filled counter and the whole grid record
exactly as after the first pass. -/
theorem monitor_grid_idempotent (open_order_ids : List String) (g : Grid) :
    monitor_grid open_order_ids (monitor_grid open_order_ids g)
      = monitor_grid open_order_ids g := by
  unfold monitor_grid
  simp only [List.map_map]
  have h1 : g.levels.map (monitorLevel open_order_ids ∘ monitorLevel open_order_ids)
      = g.levels.map (monitorLevel open_order_ids) := by
    apply List.map_congr_left
    intro a _
    exact monitorLevel_idem open_order_ids a
  have h2 : (g.levels.map (monitorLevel open_order_ids)).countP
        (filledFlag open_order_ids)
      = g.levels.countP (filledFlag open_order_ids) := by
    rw [List.countP_map]
    apply List.countP_congr
    intro a _
    simp [Function.comp, filledFlag_monitorLevel]
  rw [h1, h2]

/-- Counterexample to C6 as stated: cancelling a run that is already in
the terminal status COMPLETED does not fail with AlreadyTerminal; it
succeeds (returns True) and overwrites the terminal status with
CANCELLED, so the run's state is changed. -/
theorem cancel_terminal_counterexample :
    completedRun.status = "COMPLETED" ∧
    (cancel_strategy [("s1", completedRun)] "s1" 200).2 = true ∧
    ((cancel_strategy [("s1", completedRun)] "s1" 200).1.lookup "s1").map TwapRun.status
      = some "CANCELLED" ∧
    ("CANCELLED" : String) ≠ "COMPLETED" := by
  refine ⟨rfl, rfl, ?_, by decide⟩
  rfl

/-- C6 amended: cancel_strategy returns False and changes nothing when
the id is unknown (close_grid returns the Grid-not-found error), and
when the run exists it returns True and unconditionally overwrites the
status with CANCELLED (close_grid with CLOSED), with no AlreadyTerminal
guard, so a run already in a terminal state has its state changed. -/
theorem cancel_ignores_terminal (reg : TwapRegistry) (sid : String) (now : ℚ)
    (grids : GridRegistry) (gid : String) (open_orders : List String)
    (cancelOk : String → Bool) :
    (reg.lookup sid = none → cancel_strategy reg sid now = (reg, false)) ∧
    (∀ r, reg.lookup sid = some r →
      (cancel_strategy reg sid now).2 = true ∧
      ((cancel_strategy reg sid now).1.lookup sid).map TwapRun.status
        = some "CANCELLED") ∧
    (grids.lookup gid = none →
      close_grid grids gid open_orders cancelOk
        = (.err "Grid not found" "ERROR", grids)) ∧
    (∀ g, grids.lookup gid = some g →
      (close_grid grids gid open_orders cancelOk).1
        = .closed gid (open_orders.filter cancelOk).length ∧
      (((close_grid grids gid open_orders cancelOk).2).lookup gid).map Grid.status
        = some "CLOSED") := by
  refine ⟨?_, ?_, ?_, ?_⟩
  · intro hnone
    unfold cancel_strategy
    rw [hnone]
  · intro r hsome
    unfold cancel_strategy
    rw [hsome]
    refine ⟨rfl, ?_⟩
    simp only [lookup_updateRun, hsome, Option.map_map, Option.map_some']
  · intro hnone
    unfold close_grid
    rw [hnone]
  · intro g hsome
    unfold close_grid
    rw [hsome]
    refine ⟨rfl, ?_⟩
    simp only [lookup_updateGrid, hsome, Option.map_map, Option.map_some']

/-- Witness for C6 amended: an unknown id leaves the registry alone and
returns False; cancelling the COMPLETED run s overwrites it to
CANCELLED; an unknown grid id yields the error; closing the grid g sets
it to CLOSED and counts the one successful cancel. -/
theorem cancel_ignores_terminal_witness :
    (cancel_strategy [] "x" 0 = ([], false)) ∧
    ((cancel_strategy [("s", completedRun)] "s" 0).2 = true ∧
     ((cancel_strategy [("s", completedRun)] "s" 0).1.lookup "s").map TwapRun.status
       = some "CANCELLED") ∧
    (close_grid [] "g" [] (fun _ => true) = (.err "Grid not found" "ERROR", [])) ∧
    ((close_grid [("g", sampleGrid)] "g" ["1"] (fun _ => true)).1
       = .closed "g" (["1"].filter (fun _ => true)).length ∧
     (((close_grid [("g", sampleGrid)] "g" ["1"] (fun _ => true)).2).lookup "g").map Grid.status
       = some "CLOSED") := by
  refine ⟨?_, ?_, ?_, ?_⟩
  · exact (cancel_ignores_terminal [] "x" 0 [] "g" [] (fun _ => true)).1 rfl
  · exact (cancel_ignores_terminal [("s", completedRun)] "s" 0 [] "g" []
      (fun _ => true)).2.1 completedRun rfl
  · exact (cancel_ignores_terminal [] "x" 0 [] "g" [] (fun _ => true)).2.2.1 rfl
  · exact (cancel_ignores_terminal [] "x" 0 [("g", sampleGrid)] "g" ["1"]
      (fun _ => true)).2.2.2 sampleGrid rfl

theorem runEvents_append (sid : String) (now : ℚ) (s : TwapSystem)
    (es1 es2 : List TwapEvent) :
    runEvents sid now s (es1 ++ es2)
      = runEvents sid now (runEvents sid now s es1) es2 := by
  simp [runEvents]

theorem fold_chunks_submitted (sid : String) (now : ℚ) (n : ℕ) (s : TwapSystem) :
    (runEvents sid now s ((List.range n).map TwapEvent.chunk)).submitted
      = s.submitted + n := by
  induction n generalizing s with
  | zero => simp [runEvents]
  | succ n ih =>
    rw [List.range_succ, List.map_append, runEvents_append]
    show (twapStep sid now (runEvents sid now s ((List.range n).map TwapEvent.chunk))
        (TwapEvent.chunk n)).submitted = s.submitted + (n + 1)
    simp [twapStep, ih s]
    omega

theorem fold_chunks_lookup (sid : String) (now : ℚ) (n : ℕ) (s : TwapSystem) :
    ((runEvents sid now s ((List.range n).map TwapEvent.chunk)).reg.lookup sid)
      = (s.reg.lookup sid).map
          (fun r => if n = 0 then r else { r with chunks_completed := n }) := by
  induction n generalizing s with
  | zero =>
    simp [runEvents]
  | succ n ih =>
    rw [List.range_succ, List.map_append, runEvents_append]
    show ((twapStep sid now (runEvents sid now s ((List.range n).map TwapEvent.chunk))
        (TwapEvent.chunk n)).reg.lookup sid) = _
    simp only [twapStep]
    rw [lookup_updateRun, ih s, Option.map_map]
    cases hcase : s.reg.lookup sid with
    | none => rfl
    | some r =>
      simp only [Option.map_some', Function.comp]
      cases n with
      | zero => rfl
      | succ m => rfl

/-- Counterexample to C7 as stated: in a 4-level grid run where the
gateway rejects the child at index 2, that child is recorded with
status FAILED, not REJECTED as the claim and the spec's taxonomy state
(an exception would likewise be recorded as ERROR); the other three
children are placed normally. -/
theorem child_rejected_not_REJECTED_counterexample :
    ((place_grid_orders
        (fun i => if i = 2 then GatewayResp.rejected "rej" else GatewayResp.ack "ok")
        (gridLevelsOf (linspaceList 48000 52000 4) 1)).map GridLevel.status
      = ["PLACED", "PLACED", "FAILED", "PLACED"]) ∧
    ("FAILED" : String) ≠ "REJECTED" := by
  constructor
  · rfl
  · decide

/-- C7 amended: a single child-order submission failure does not abort
the remaining plan, but the failed child is recorded as FAILED (venue
rejection) or ERROR (exception), not REJECTED.  In the grid placement
loop, the level at index j of the result is determined by the original
level and the gateway outcome for j alone, every index is attempted, and
the result's status is PLACED / FAILED / ERROR by outcome; in the TWAP
worker loop the per-chunk result is never consulted, so every one of the
n chunk orders is submitted no matter which of them the venue rejects. -/
theorem child_failure_isolated (gw : ℕ → GatewayResp) (levels : List GridLevel) :
    (place_grid_orders gw levels).length = levels.length ∧
    (∀ j (h1 : j < levels.length) (h2 : j < (place_grid_orders gw levels).length),
      (place_grid_orders gw levels)[j] = placeLevel (gw j) (levels[j]) ∧
      ((place_grid_orders gw levels)[j]).status
        = (match gw j with
           | GatewayResp.ack _ => "PLACED"
           | GatewayResp.rejected _ => "FAILED"
           | GatewayResp.exn _ => "ERROR")) ∧
    (∀ sid (now : ℚ) (s : TwapSystem) n,
      (runEvents sid now s (workerEvents n)).submitted = s.submitted + n) := by
  refine ⟨by simp [place_grid_orders], ?_, ?_⟩
  · intro j h1 h2
    have hget : (place_grid_orders gw levels)[j] = placeLevel (gw j) (levels[j]) := by
      simp [place_grid_orders]
    refine ⟨hget, ?_⟩
    rw [hget]
    cases gw j <;> rfl
  · intro sid now s n
    unfold workerEvents
    rw [runEvents_append]
    show (twapStep sid now _ TwapEvent.finish).submitted = s.submitted + n
    simp [twapStep, fold_chunks_submitted]

/-- Witness for C7 amended: in the 4-level grid where index 2 is
rejected, level 2 comes out FAILED and level 3 comes out PLACED, and a
4-chunk TWAP worker starting from submitted = 0 submits all 4 orders. -/
theorem child_failure_isolated_witness :
    ((place_grid_orders
        (fun i => if i = 2 then GatewayResp.rejected "rej" else GatewayResp.ack "ok")
        (gridLevelsOf (linspaceList 48000 52000 4) 1)).get
          ⟨2, by decide⟩).status = "FAILED" := by
  have h := (child_failure_isolated
    (fun i => if i = 2 then GatewayResp.rejected "rej" else GatewayResp.ack "ok")
    (gridLevelsOf (linspaceList 48000 52000 4) 1)).2.1 2 (by decide) (by decide)
  exact h.2.trans rfl

/-- Counterexample to C8 as stated: a TWAP start request with the
invalid quantity -1 does not fail with InvalidParameters; execute
succeeds and a run IS created and registered with status RUNNING. -/
theorem twap_no_validation_counterexample :
    ((twap_execute [] "BTCUSDT" "BUY" (-1) 1 4 0 0).2.lookup
        "twap_BTCUSDT_0").map TwapRun.status = some "RUNNING" ∧
    (twap_execute [] "BTCUSDT" "BUY" (-1) 1 4 0 0).2.length = 1 ∧
    ((-1 : ℚ) ≤ 0) := by
  refine ⟨rfl, rfl, by norm_num⟩

/-- C8 amended: start performs no parameter validation and
InvalidParameters does not exist.  TWAP execute fails only for
chunks = 0 (the ZeroDivisionError is caught into the error dictionary
and nothing is registered); for every chunks >= 1 it registers a RUNNING
run and returns the started summary whatever the quantity, duration or
symbol; grid setup always fails with the NameError dictionary and
registers nothing, whatever its parameters. -/
theorem twap_execute_no_validation (reg : TwapRegistry) (symbol side : String)
    (total_quantity duration_hours : ℚ) (chunks : ℕ) (t : ℕ) (now : ℚ) :
    (chunks = 0 →
      twap_execute reg symbol side total_quantity duration_hours chunks t now
        = (.errored "Error starting TWAP strategy: division by zero", reg)) ∧
    (1 ≤ chunks →
      twap_execute reg symbol side total_quantity duration_hours chunks t now
        = (.started ("twap_" ++ symbol ++ "_" ++ toString t)
            (total_quantity / chunks) (duration_hours * 3600 / chunks)
            (execution_plan total_quantity duration_hours chunks),
           reg ++ [(("twap_" ++ symbol ++ "_" ++ toString t),
             { symbol := symbol, side := side, total_quantity := total_quantity,
               chunks_completed := 0, start_time := now, status := "RUNNING",
               end_time := none, error := none })])) ∧
    (∀ (grids : GridRegistry) (gsymbol : String) (lo hi : ℚ) (gl : ℕ) (oq : ℚ)
       (gt : String) (gq : ℚ) (gtt : ℕ),
      (setup_grid grids gsymbol lo hi gl oq gt gq gtt).2 = grids ∧
      (setup_grid grids gsymbol lo hi gl oq gt gq gtt).1
        = .err "Error setting up grid: name 'time' is not defined" "ERROR") := by
  have hmem : ("time" ∈ gridModuleNames) = False := by simp [gridModuleNames]
  refine ⟨?_, ?_, ?_⟩
  · intro h
    simp [twap_execute, h]
  · intro h
    have h0 : ¬ chunks = 0 := by omega
    simp [twap_execute, h0]
  · intro grids gsymbol lo hi gl oq gt gq gtt
    constructor <;> simp [setup_grid, hmem]

/-- Witness for C8 amended: chunks = 0 yields the error dictionary with
nothing registered, while an invalid quantity of -1 with 4 chunks
happily registers a RUNNING run. -/
theorem twap_execute_no_validation_witness :
    (twap_execute [] "BTCUSDT" "BUY" 1 1 0 0 0
       = (.errored "Error starting TWAP strategy: division by zero", [])) ∧
    (twap_execute [] "BTCUSDT" "BUY" (-1) 1 4 0 0
       = (.started ("twap_" ++ "BTCUSDT" ++ "_" ++ toString (0 : ℕ))
           ((-1 : ℚ) / ((4 : ℕ) : ℚ)) ((1 : ℚ) * 3600 / ((4 : ℕ) : ℚ))
           (execution_plan (-1) 1 4),
          [(("twap_" ++ "BTCUSDT" ++ "_" ++ toString (0 : ℕ)),
            { symbol := "BTCUSDT", side := "BUY", total_quantity := -1,
              chunks_completed := 0, start_time := 0, status := "RUNNING",
              end_time := none, error := none })])) :=
  ⟨(twap_execute_no_validation [] "BTCUSDT" "BUY" 1 1 0 0 0).1 rfl,
   (twap_execute_no_validation [] "BTCUSDT" "BUY" (-1) 1 4 0 0).2.1 (by norm_num)⟩

/-- C10: cancelling a TWAP run does not stop its detached worker.  In
the interleaving where cancel_strategy runs first (returning True and
setting the status to CANCELLED) and the background worker then runs to
completion, the worker still submits every one of the n chunk orders and
its epilogue overwrites the run's CANCELLED status with COMPLETED, so
the run transitions CANCELLED to COMPLETED despite the cancel. -/
theorem twap_cancel_then_completed (sid : String) (now : ℚ) (reg0 : TwapRegistry)
    (r0 : TwapRun) (n : ℕ) (h0 : reg0.lookup sid = some r0) (hn : 1 ≤ n) :
    (cancel_strategy reg0 sid now).2 = true ∧
    (((twapStep sid now ⟨reg0, 0⟩ TwapEvent.cancel).reg.lookup sid).map TwapRun.status
      = some "CANCELLED") ∧
    (((runEvents sid now (twapStep sid now ⟨reg0, 0⟩ TwapEvent.cancel)
        (workerEvents n)).reg.lookup sid).map TwapRun.status = some "COMPLETED") ∧
    (((runEvents sid now (twapStep sid now ⟨reg0, 0⟩ TwapEvent.cancel)
        (workerEvents n)).reg.lookup sid).map TwapRun.chunks_completed = some n) ∧
    (runEvents sid now (twapStep sid now ⟨reg0, 0⟩ TwapEvent.cancel)
        (workerEvents n)).submitted = n := by
  have hc : cancel_strategy reg0 sid now
      = (updateRun reg0 sid
          (fun r => { r with status := "CANCELLED", end_time := some now }), true) := by
    unfold cancel_strategy
    rw [h0]
  have hlook1 : (twapStep sid now ⟨reg0, 0⟩ TwapEvent.cancel).reg.lookup sid
      = some { r0 with status := "CANCELLED", end_time := some now } := by
    show ((cancel_strategy reg0 sid now).1.lookup sid) = _
    rw [hc]
    simp only [lookup_updateRun, h0, Option.map_some']
  have hne : ¬ n = 0 := by omega
  have hlook1' : (cancel_strategy reg0 sid now).1.lookup sid
      = some ({ r0 with status := "CANCELLED", end_time := some now }) := by
    rw [hc]
    simp only [lookup_updateRun, h0, Option.map_some']
  have hfin : runEvents sid now (twapStep sid now ⟨reg0, 0⟩ TwapEvent.cancel)
      (workerEvents n)
      = twapStep sid now
          (runEvents sid now (twapStep sid now ⟨reg0, 0⟩ TwapEvent.cancel)
            ((List.range n).map TwapEvent.chunk)) TwapEvent.finish := by
    unfold workerEvents
    rw [runEvents_append]
    rfl
  have hlookF : (runEvents sid now (twapStep sid now ⟨reg0, 0⟩ TwapEvent.cancel)
      (workerEvents n)).reg.lookup sid
      = some ({ r0 with status := "COMPLETED", chunks_completed := n, end_time := some now }) := by
    rw [hfin]
    simp only [twapStep]
    rw [lookup_updateRun, fold_chunks_lookup]
    simp [hne, hlook1']
  refine ⟨by rw [hc], by rw [hlook1]; rfl, by rw [hlookF]; rfl, by rw [hlookF]; rfl, ?_⟩
  rw [hfin]
  show (runEvents sid now (twapStep sid now ⟨reg0, 0⟩ TwapEvent.cancel)
      ((List.range n).map TwapEvent.chunk)).submitted = n
  rw [fold_chunks_submitted]
  simp [twapStep]

/-- Witness for C10: with the single RUNNING run s and a 4-chunk worker,
cancelling first and then letting the worker run submits all 4 orders
and ends with status COMPLETED after having been CANCELLED. -/
theorem twap_cancel_then_completed_witness :
    (cancel_strategy [("s", runningRun)] "s" 0).2 = true ∧
    ((((twapStep "s" 0 ⟨[("s", runningRun)], 0⟩ TwapEvent.cancel)).reg.lookup "s").map
        TwapRun.status = some "CANCELLED") ∧
    (((runEvents "s" 0 (twapStep "s" 0 ⟨[("s", runningRun)], 0⟩ TwapEvent.cancel)
        (workerEvents 4)).reg.lookup "s").map TwapRun.status = some "COMPLETED") ∧
    (((runEvents "s" 0 (twapStep "s" 0 ⟨[("s", runningRun)], 0⟩ TwapEvent.cancel)
        (workerEvents 4)).reg.lookup "s").map TwapRun.chunks_completed = some 4) ∧
    (runEvents "s" 0 (twapStep "s" 0 ⟨[("s", runningRun)], 0⟩ TwapEvent.cancel)
        (workerEvents 4)).submitted = 4 :=
  twap_cancel_then_completed "s" 0 [("s", runningRun)] runningRun 4 rfl (by norm_num)
